import Mathlib

/-!
Verification of the TermiChat server core (the HTTP/SSE worker).

The definitions below are a shallow embedding of the worker source:

* registries are JavaScript objects, embedded as association lists in
  insertion order (updating an existing key keeps its position, a new key
  is appended at the end, `delete` removes the pair);
* ISO timestamp strings are embedded by the millisecond value they denote
  (the code only ever writes `new Date().toISOString()` and reads
  `new Date(s).getTime()`, so the round trip is the identity on that value);
* absent / `undefined` string fields of the request body are embedded as
  the empty string, which has the same truthiness everywhere the code
  tests them;
* the nondeterministic parts of message ids (`Date.now()`,
  `Math.random().toString(36)`) are passed in as the parameters `now` and
  `rnd`;
* the KV store round trips (`get`/`put` of whole documents) become plain
  state passing: one `handleAction` call reads every document once at the
  start and writes what it mutates, exactly as the sequential `await`
  chain in the source does.
-/

namespace TermiChat

/-- Roles stored in the permissions registry and cached in presence. -/
inductive Role where
  | user
  | admin
  | banned
deriving DecidableEq, Repr

/-- Presence status values. -/
inductive Status where
  | online
  | offline
deriving DecidableEq, Repr

/-- `UserInfo`: one presence-registry entry.  `status` and `role` are
optional because the JS object spread can produce entries lacking them
(e.g. `updateUserRegistry(name, \x7brole: 'admin'\x7d)` on a fresh name
creates an entry with no `status` field); `lastSeen` is written by every
`updateUserRegistry` call, hence total. -/
structure UserInfo where
  status : Option Status
  lastSeen : Int
  role : Option Role
deriving DecidableEq, Repr

/-- `UserPermission`: one permissions-registry entry.  Every write site
supplies `role`, so it is total. -/
structure UserPermission where
  role : Role
  updatedAt : Int
deriving DecidableEq, Repr

/-- A JS object keyed by strings, in property (= insertion) order. -/
abbrev Obj (α : Type) := List (String × α)

abbrev UserRegistry := Obj UserInfo
abbrev PermissionsRegistry := Obj UserPermission

/-- `obj[k]`: first (only, keys being unique) binding of `k`. -/
def lookupObj {α : Type} : Obj α → String → Option α
  | [], _ => none
  | (k', v) :: rest, k => if k' = k then some v else lookupObj rest k

/-- `obj[k] = v`: updating an existing key keeps its position, a fresh key
is appended at the end (JS property order). -/
def objSet {α : Type} : Obj α → String → α → Obj α
  | [], k, v => [(k, v)]
  | (k', v') :: rest, k, v =>
      if k' = k then (k, v) :: rest else (k', v') :: objSet rest k v

/-- `delete obj[k]`. -/
def eraseKey {α : Type} (m : Obj α) (k : String) : Obj α :=
  m.filter (fun p => p.1 != k)

@[simp] theorem lookupObj_nil {α : Type} (k : String) :
    lookupObj ([] : Obj α) k = none := rfl

@[simp] theorem lookupObj_cons {α : Type} (k' : String) (v : α) (rest : Obj α) (k : String) :
    lookupObj ((k', v) :: rest) k = if k' = k then some v else lookupObj rest k := rfl

@[simp] theorem objSet_nil {α : Type} (k : String) (v : α) :
    objSet ([] : Obj α) k v = [(k, v)] := rfl

@[simp] theorem objSet_cons {α : Type} (k' : String) (v' : α) (rest : Obj α) (k : String) (v : α) :
    objSet ((k', v') :: rest) k v =
      if k' = k then (k, v) :: rest else (k', v') :: objSet rest k v := rfl

theorem lookupObj_objSet_self {α : Type} (m : Obj α) (k : String) (v : α) :
    lookupObj (objSet m k v) k = some v := by
  induction m with
  | nil => simp
  | cons p rest ih =>
      obtain ⟨k', v'⟩ := p
      by_cases h : k' = k <;> simp [h, ih]

theorem lookupObj_objSet_ne {α : Type} (m : Obj α) (k k₀ : String) (v : α)
    (hne : k ≠ k₀) : lookupObj (objSet m k v) k₀ = lookupObj m k₀ := by
  induction m with
  | nil => simp [hne]
  | cons p rest ih =>
      obtain ⟨k', v'⟩ := p
      by_cases h : k' = k
      · subst h
        simp [hne]
      · by_cases h0 : k' = k₀ <;> simp [h, h0, Ne.symm hne, ih]

theorem keys_objSet {α : Type} (m : Obj α) (k : String) (v : α) :
    (objSet m k v).map Prod.fst =
      if (lookupObj m k).isSome then m.map Prod.fst else m.map Prod.fst ++ [k] := by
  induction m with
  | nil => simp
  | cons p rest ih =>
      obtain ⟨k', v'⟩ := p
      by_cases h : k' = k
      · subst h; simp
      · simp only [objSet_cons, if_neg h, lookupObj_cons, List.map_cons, ih]
        by_cases hs : (lookupObj rest k).isSome <;> simp [h, hs]

/-- The partial-update objects passed to `updateUserRegistry`
(`\x7bstatus: ...\x7d`, `\x7brole: ...\x7d`, `\x7bstatus: ..., role: ...\x7d`):
a field is `none` when the JS literal omits it. -/
structure RegUpdate where
  status : Option Status
  role : Option Role
deriving DecidableEq, Repr

/-- `\x7b ...(registry[username] || \x7b\x7d), ...updates, lastSeen: now \x7d`:
fields present in `updates` win, `lastSeen` is always freshly stamped. -/
def applyUpdate (old : Option UserInfo) (upd : RegUpdate) (now : Int) : UserInfo :=
  let base := old.getD { status := none, lastSeen := 0, role := none }
  { status := match upd.status with
      | some st => some st
      | none => base.status
    role := match upd.role with
      | some r => some r
      | none => base.role
    lastSeen := now }

/-- `updateUserRegistry` (part_001 lines 510-534): merge the update over the
existing entry, stamp `lastSeen`, and — only without durable KV backing —
prune the first 20 keys (insertion order) once the map holds more than 100. -/
def updateUserRegistry (reg : UserRegistry) (username : String) (upd : RegUpdate)
    (now : Int) (hasKV : Bool) : UserRegistry :=
  let reg' := objSet reg username (applyUpdate (lookupObj reg username) upd now)
  if hasKV then reg'
  else
    let keys := reg'.map Prod.fst
    if keys.length > 100 then (keys.take 20).foldl eraseKey reg' else reg'

/-- `updatePermissionsRegistry` (lines 551-568).  Every call site passes
`\x7brole: ...\x7d`, so the merged entry is always `\x7brole, updatedAt: now\x7d`. -/
def updatePermissionsRegistry (perms : PermissionsRegistry) (username : String)
    (role : Role) (now : Int) : PermissionsRegistry :=
  objSet perms username { role := role, updatedAt := now }

/-- Role resolution, as performed at part_001 lines 204-205 and 267-270:
`userPerm ? userPerm.role : (registry[name]?.role || 'user')`. -/
def effectiveRole (name : String) (registry : UserRegistry)
    (permissions : PermissionsRegistry) : Role :=
  match lookupObj permissions name with
  | some p => p.role
  | none =>
      match lookupObj registry name with
      | some info => info.role.getD Role.user
      | none => Role.user

/-- One element of the `user_list` broadcast payload. -/
structure UserListEntry where
  username : String
  status : Status
  role : Role
  color : String
deriving DecidableEq, Repr

/-- The filter inside `broadcastUserList` (part_001 lines 480-506): keep the
registry entries that are `online`, seen within 60 s, and not `banned`;
note it reads only the presence registry, never the local session map. -/
def buildUserList (registry : UserRegistry) (now : Int) : List UserListEntry :=
  registry.filterMap fun p =>
    if p.2.status = some Status.online ∧ now - p.2.lastSeen < 60000 ∧
        p.2.role ≠ some Role.banned then
      some { username := p.1, status := Status.online,
             role := p.2.role.getD Role.user, color := "white" }
    else none

/-- Outbound messages (the JSON payloads handed to `sendSSE`).  `system`
messages carry an id and timestamp only when the source literal does. -/
inductive OutMsg where
  | system (id : Option String) (content : String) (timestamp : Option Int)
  | chat (id : String) (username : String) (userId : String) (role : Role)
      (content : String) (timestamp : Int)
  | userList (users : List UserListEntry)
  | cmdResultListUsers (registry : UserRegistry) (timestamp : Int)
deriving DecidableEq, Repr

/-- `appendToHistory` (lines 583-597): push, then trim.  The KV branch keeps
`slice(-50)`; the memory branch `shift`s one element off the front. -/
def appendToHistory (hasKV : Bool) (history : List OutMsg) (m : OutMsg) : List OutMsg :=
  if hasKV then
    let h := history ++ [m]
    if h.length > 50 then h.drop (h.length - 50) else h
  else
    let h := history ++ [m]
    if h.length > 50 then h.drop 1 else h

/-- A local SSE session (`ClientSession`), minus the stream plumbing. -/
structure ClientSession where
  username : String
  clientId : String
deriving DecidableEq, Repr

/-- The process-local `CLIENTS` map, keyed by `clientId`. -/
abbrev Clients := Obj ClientSession

/-- The fields destructured from a POST `/action` body.  An absent or
`undefined` field is embedded as `""` (same truthiness at every use). -/
structure ActionData where
  clientId : String
  type : String
  content : String
  username : String
  secret : String
  targetUser : String
deriving DecidableEq, Repr

/-- The worker environment: `ADMIN_SECRET` (`""` = unset) and whether
`CHAT_KV` is bound. -/
structure Env where
  adminSecret : String
  hasKV : Bool
deriving DecidableEq, Repr

/-- `env.ADMIN_SECRET || 'secret123'`. -/
def serverSecret (env : Env) : String :=
  if env.adminSecret = "" then "secret123" else env.adminSecret

/-- All state one `handleAction` call can read or write: the two persisted
registries, the persisted history document, and the local session map. -/
structure ServerState where
  registry : UserRegistry
  permissions : PermissionsRegistry
  history : List OutMsg
  clients : Clients
deriving DecidableEq, Repr

/-- Observable side channels of one `handleAction` call. -/
inductive Effect where
  | broadcast (msg : OutMsg)
  | privateMsg (clientId : String) (content : String)
  | sse (clientId : String) (msg : OutMsg)
  | kick (clientId : String)
deriving DecidableEq, Repr

/-- `sendPrivateSystem(session, text)`: silently a no-op without a local
session. -/
def privateTo (session : Option ClientSession) (text : String) : List Effect :=
  match session with
  | some sess => [Effect.privateMsg sess.clientId text]
  | none => []

/-- `broadcastUserList(env, hasKV)`: rebuild the list from the (freshly
persisted) registry and broadcast it. -/
def userListEffect (reg : UserRegistry) (now : Int) : Effect :=
  Effect.broadcast (OutMsg.userList (buildUserList reg now))

/-- The sender-name fallback chain
`username || (session ? session.username : 'Anonymous')`. -/
def senderNameOf (d : ActionData) (clients : Clients) : String :=
  if d.username ≠ "" then d.username
  else
    match lookupObj clients d.clientId with
    | some sess => sess.username
    | none => "Anonymous"

/-- Result of one dispatched action. -/
structure ActionResult where
  state : ServerState
  effects : List Effect
deriving DecidableEq, Repr

/-- `handleAction` (part_001 lines 181-386), branch by branch.  `now` is
the wall clock, `rnd` the random id suffix. -/
def handleAction (d : ActionData) (s : ServerState) (env : Env) (now : Int)
    (rnd : String) : ActionResult :=
  let session := lookupObj s.clients d.clientId
  let hasKV := env.hasKV
  let permissions := s.permissions
  let registry := s.registry
  if d.type = "join" then
    let userPerm := lookupObj permissions d.username
    if (userPerm.map UserPermission.role) = some Role.banned then
      { state := s,
        effects := privateTo session "ACCESS DENIED: You are banned from this server." }
    else
      let role :=
        match userPerm with
        | some p => p.role
        | none =>
            match lookupObj registry d.username with
            | some info => info.role.getD Role.user
            | none => Role.user
      let clients' :=
        match session with
        | some _ =>
            objSet s.clients d.clientId
              { username := if d.username = "" then "Anonymous" else d.username,
                clientId := d.clientId }
        | none => s.clients
      let isQuickReconnect : Bool :=
        match lookupObj registry d.username with
        | some u => decide (u.status = some Status.online ∧ now - u.lastSeen < 10000)
        | none => false
      let reg' := updateUserRegistry registry d.username
        { status := some Status.online, role := some role } now hasKV
      { state := { s with registry := reg', clients := clients' },
        effects := [userListEffect reg' now] ++
          (if isQuickReconnect then [] else
            [Effect.broadcast (OutMsg.system
              (some ("sys-join-" ++ toString now ++ "-" ++ rnd))
              (d.username ++ " joined the channel.") (some now))]) }
  else if d.type = "ping" then
    if d.username ≠ "" ∧ d.username ≠ "Anonymous" then
      let reg' := updateUserRegistry registry d.username
        { status := some Status.online, role := none } now hasKV
      { state := { s with registry := reg' }, effects := [] }
    else
      { state := s, effects := [] }
  else if d.type = "leave" then
    let r :=
      if d.username ≠ "" ∧ d.username ≠ "Anonymous" then
        let reg' := updateUserRegistry registry d.username
          { status := some Status.offline, role := none } now hasKV
        ({ s with registry := reg' },
         [Effect.broadcast (OutMsg.system
            (some ("sys-leave-" ++ toString now ++ "-" ++ rnd))
            (d.username ++ " left the channel.") (some now)),
          userListEffect reg' now])
      else (s, ([] : List Effect))
    match session with
    | some _ =>
        { state := { r.1 with clients := eraseKey r.1.clients d.clientId },
          effects := r.2 }
    | none => { state := r.1, effects := r.2 }
  else
    let senderName := senderNameOf d s.clients
    let senderRole := effectiveRole senderName registry permissions
    if senderRole = Role.banned then
      { state := s,
        effects := privateTo session "You are banned and cannot perform actions." }
    else if d.type = "chat" then
      let chatMsg := OutMsg.chat ("msg-" ++ toString now ++ "-" ++ rnd)
        senderName senderName senderRole d.content now
      { state := { s with history := appendToHistory hasKV s.history chatMsg },
        effects := [Effect.broadcast chatMsg] }
    else if d.type = "cmd_admin" then
      if d.secret = serverSecret env then
        let perms' := updatePermissionsRegistry permissions senderName Role.admin now
        let reg' := updateUserRegistry registry senderName
          { status := none, role := some Role.admin } now hasKV
        { state := { s with permissions := perms', registry := reg' },
          effects := privateTo session
              ("Admin privileges granted to " ++ senderName ++ ".") ++
            [userListEffect reg' now] }
      else
        { state := s, effects := privateTo session "Invalid admin secret." }
    else if d.type = "cmd_op" then
      if senderRole ≠ Role.admin then
        { state := s,
          effects := privateTo session "Permission denied. You are not an admin." }
      else if d.targetUser ≠ "" then
        let perms' := updatePermissionsRegistry permissions d.targetUser Role.admin now
        let reg' := updateUserRegistry registry d.targetUser
          { status := none, role := some Role.admin } now hasKV
        { state := { s with permissions := perms', registry := reg' },
          effects := privateTo session
              ("User " ++ d.targetUser ++ " promoted to Admin.") ++
            [Effect.broadcast (OutMsg.system none
               ("SERVER: " ++ d.targetUser ++ " was promoted to Admin by " ++
                 senderName ++ ".") none),
             userListEffect reg' now] }
      else { state := s, effects := [] }
    else if d.type = "cmd_deop" then
      if senderRole ≠ Role.admin then
        { state := s,
          effects := privateTo session "Permission denied. You are not an admin." }
      else if d.targetUser ≠ "" then
        let perms' := updatePermissionsRegistry permissions d.targetUser Role.user now
        let reg' := updateUserRegistry registry d.targetUser
          { status := none, role := some Role.user } now hasKV
        { state := { s with permissions := perms', registry := reg' },
          effects := privateTo session
              ("User " ++ d.targetUser ++ " demoted to User.") ++
            [Effect.broadcast (OutMsg.system none
               ("SERVER: " ++ d.targetUser ++ " was demoted by " ++
                 senderName ++ ".") none),
             userListEffect reg' now] }
      else { state := s, effects := [] }
    else if d.type = "cmd_ban" then
      if senderRole ≠ Role.admin then
        { state := s,
          effects := privateTo session "Permission denied. You are not an admin." }
      else if d.targetUser ≠ "" then
        if d.targetUser = senderName then
          { state := s, effects := privateTo session "You cannot ban yourself." }
        else
          let perms' := updatePermissionsRegistry permissions d.targetUser Role.banned now
          let reg' := updateUserRegistry registry d.targetUser
            { status := some Status.offline, role := some Role.banned } now hasKV
          let kicked := s.clients.filter (fun p => p.2.username == d.targetUser)
          let clients' := s.clients.filter (fun p => p.2.username != d.targetUser)
          let st' := { s with permissions := perms', registry := reg', clients := clients' }
          { state := st',
            effects := [Effect.broadcast (OutMsg.system none
                ("SERVER: " ++ d.targetUser ++ " has been BANNED by " ++
                  senderName ++ ".") none),
              userListEffect reg' now] ++
              kicked.flatMap (fun p =>
                [Effect.privateMsg p.1 "You have been kicked/banned from the server.",
                 Effect.kick p.1]) }
      else { state := s, effects := [] }
    else if d.type = "cmd_unban" then
      if senderRole ≠ Role.admin then
        { state := s,
          effects := privateTo session "Permission denied. You are not an admin." }
      else if d.targetUser ≠ "" then
        let perms' := updatePermissionsRegistry permissions d.targetUser Role.user now
        let reg' := updateUserRegistry registry d.targetUser
          { status := none, role := some Role.user } now hasKV
        { state := { s with permissions := perms', registry := reg' },
          effects := privateTo session ("User " ++ d.targetUser ++ " unbanned.") ++
            [Effect.broadcast (OutMsg.system none
               ("SERVER: " ++ d.targetUser ++ " was unbanned by " ++
                 senderName ++ ".") none)] }
      else { state := s, effects := [] }
    else if d.type = "cmd_list_users" then
      match session with
      | some _ =>
          { state := s,
            effects := [Effect.sse d.clientId
              (OutMsg.cmdResultListUsers registry now)] }
      | none => { state := s, effects := [] }
    else
      { state := s, effects := [] }

/-- The HTTP reply an `/action` POST gets.  -/
structure HttpResponse where
  status : Nat
  body : String
deriving DecidableEq, Repr

/-- The `POST /action` route (part_001 lines 138-157): run `handleAction`
and reply 200 `\x7b"success":true\x7d`.  The embedded `handleAction` is
total, matching the source, whose own storage errors are swallowed inside
the helpers; only a throw would produce the 500 branch. -/
def actionEndpoint (d : ActionData) (s : ServerState) (env : Env) (now : Int)
    (rnd : String) : HttpResponse × ActionResult :=
  ({ status := 200, body := "\x7b\"success\":true\x7d" },
   handleAction d s env now rnd)

/-! ### History-buffer lemmas -/

theorem appendToHistory_eq_lastFifty (hasKV : Bool) (h : List OutMsg) (m : OutMsg)
    (hlen : h.length ≤ 50) :
    appendToHistory hasKV h m = (h ++ [m]).drop ((h ++ [m]).length - 50) := by
  unfold appendToHistory
  cases hasKV <;> simp only [if_true, if_false, Bool.false_eq_true, ite_false, ite_true]
  · by_cases hgt : (h ++ [m]).length > 50
    · have h51 : (h ++ [m]).length = 51 := by simp at hgt ⊢; omega
      rw [h51]
      norm_num
    · simp only [hgt, if_false]
      have : (h ++ [m]).length - 50 = 0 := by omega
      rw [this, List.drop_zero]
  · by_cases hgt : (h ++ [m]).length > 50
    · simp only [hgt, if_true]
    · simp only [hgt, if_false]
      have : (h ++ [m]).length - 50 = 0 := by omega
      rw [this, List.drop_zero]

theorem appendToHistory_length_le (hasKV : Bool) (h : List OutMsg) (m : OutMsg)
    (hlen : h.length ≤ 50) : (appendToHistory hasKV h m).length ≤ 50 := by
  rw [appendToHistory_eq_lastFifty hasKV h m hlen]
  simp only [List.length_drop, List.length_append, List.length_singleton]
  omega

theorem lastFifty_drop_append {α : Type} (l ms : List α) :
    ((l.drop (l.length - 50)) ++ ms).drop (((l.drop (l.length - 50)) ++ ms).length - 50) =
      (l ++ ms).drop ((l ++ ms).length - 50) := by
  by_cases hL : l.length ≤ 50
  · have h0 : l.length - 50 = 0 := by omega
    rw [h0, List.drop_zero]
  · have hkle : l.length - 50 ≤ l.length := by omega
    rw [← List.drop_append_of_le_length hkle, List.drop_drop]
    congr 1
    simp only [List.length_drop, List.length_append]
    omega

theorem foldl_appendToHistory (hasKV : Bool) :
    ∀ (msgs : List OutMsg) (h : List OutMsg), h.length ≤ 50 →
      msgs.foldl (appendToHistory hasKV) h = (h ++ msgs).drop ((h ++ msgs).length - 50) := by
  intro msgs
  induction msgs with
  | nil =>
      intro h hlen
      simp only [List.foldl_nil, List.append_nil]
      have : h.length - 50 = 0 := by omega
      rw [this, List.drop_zero]
  | cons m ms ih =>
      intro h hlen
      rw [List.foldl_cons, ih _ (appendToHistory_length_le hasKV h m hlen),
        appendToHistory_eq_lastFifty hasKV h m hlen, lastFifty_drop_append]
      simp

/-! ### Eviction lemmas -/

theorem eraseKey_cons_self {α : Type} (k : String) (v : α) (rest : Obj α)
    (hk : k ∉ rest.map Prod.fst) : eraseKey ((k, v) :: rest) k = rest := by
  unfold eraseKey
  rw [List.filter_cons]
  simp only [bne_self_eq_false, Bool.false_eq_true, if_false]
  apply List.filter_eq_self.mpr
  intro a ha
  simp only [bne_iff_ne, ne_eq]
  intro heq
  apply hk
  rw [← heq]
  exact List.mem_map_of_mem Prod.fst ha

theorem foldl_eraseKey_take {α : Type} :
    ∀ (l : Obj α) (n : Nat), (l.map Prod.fst).Nodup →
      ((l.map Prod.fst).take n).foldl eraseKey l = l.drop n := by
  intro l
  induction l with
  | nil => intro n _; simp
  | cons p rest ih =>
      intro n hnd
      obtain ⟨k, v⟩ := p
      match n with
      | 0 => simp
      | Nat.succ m =>
          simp only [List.map_cons, List.take_succ_cons, List.foldl_cons, List.drop_succ_cons]
          have hk : k ∉ rest.map Prod.fst := by
            simp only [List.map_cons, List.nodup_cons] at hnd
            exact hnd.1
          rw [eraseKey_cons_self k v rest hk]
          exact ih m (by simp only [List.map_cons, List.nodup_cons] at hnd; exact hnd.2)

/-! ### User-list lemmas -/

theorem mem_buildUserList_username (reg : UserRegistry) (now : Int) :
    ∀ e ∈ buildUserList reg now, e.username ∈ reg.map Prod.fst := by
  intro e he
  unfold buildUserList at he
  rw [List.mem_filterMap] at he
  obtain ⟨p, hp, hcond⟩ := he
  split at hcond
  · cases hcond
    exact List.mem_map_of_mem Prod.fst hp
  · cases hcond

theorem buildUserList_mem_iff (reg : UserRegistry) (now : Int) (u : String)
    (hnd : (reg.map Prod.fst).Nodup) :
    (∃ e ∈ buildUserList reg now, e.username = u) ↔
      (∃ info, lookupObj reg u = some info ∧ info.status = some Status.online ∧
        now - info.lastSeen < 60000 ∧ info.role ≠ some Role.banned) := by
  induction reg with
  | nil => simp [buildUserList]
  | cons p rest ih =>
      obtain ⟨k, v⟩ := p
      simp only [List.map_cons, List.nodup_cons] at hnd
      have hrest := ih hnd.2
      by_cases hk : k = u
      · subst hk
        constructor
        · rintro ⟨e, he, heq⟩
          unfold buildUserList at he
          rw [List.filterMap_cons] at he
          split at he
          · -- head excluded
            rename_i hcond
            exfalso
            have := mem_buildUserList_username rest now e he
            rw [heq] at this
            exact hnd.1 this
          · rename_i entry hcond
            rw [List.mem_cons] at he
            rcases he with he | he
            · -- e is the head entry: condition held
              split at hcond
              · rename_i hprop
                refine ⟨v, by simp, hprop.1, hprop.2.1, hprop.2.2⟩
              · cases hcond
            · exfalso
              have := mem_buildUserList_username rest now e he
              rw [heq] at this
              exact hnd.1 this
        · rintro ⟨info, hinfo, h1, h2, h3⟩
          simp only [lookupObj_cons, if_pos rfl] at hinfo
          cases hinfo
          refine ⟨⟨k, Status.online, v.role.getD Role.user, "white"⟩, ?_, rfl⟩
          unfold buildUserList
          rw [List.filterMap_cons]
          split
          · rename_i hcond
            rw [if_pos ⟨h1, h2, h3⟩] at hcond
            cases hcond
          · rename_i entry hcond
            rw [if_pos ⟨h1, h2, h3⟩] at hcond
            cases hcond
            exact List.mem_cons_self _ _
      · constructor
        · rintro ⟨e, he, heq⟩
          unfold buildUserList at he
          rw [List.filterMap_cons] at he
          simp only [lookupObj_cons, if_neg hk]
          split at he
          · exact hrest.mp ⟨e, he, heq⟩
          · rename_i entry hcond
            rw [List.mem_cons] at he
            rcases he with he | he
            · exfalso
              split at hcond
              · cases hcond
                subst he
                exact hk heq
              · cases hcond
            · exact hrest.mp ⟨e, he, heq⟩
        · intro hr
          simp only [lookupObj_cons, if_neg hk] at hr
          obtain ⟨e, he, heq⟩ := hrest.mpr hr
          refine ⟨e, ?_, heq⟩
          unfold buildUserList
          rw [List.filterMap_cons]
          split
          · exact he
          · exact List.mem_cons_of_mem _ he

/-- The `user_list` payloads among a list of effects. -/
def userListPayloads (effs : List Effect) : List (List UserListEntry) :=
  effs.filterMap fun e =>
    match e with
    | Effect.broadcast (OutMsg.userList us) => some us
    | _ => none

/-! ### Concrete fixtures used by witnesses and counterexamples -/

/-- A presence entry: online, last seen at time 0, no cached role. -/
def infoOnline0 : UserInfo := ⟨some Status.online, 0, none⟩

/-- A local session for "alice" on connection "c1". -/
def sessAlice : ClientSession := ⟨"alice", "c1"⟩

/-- State: alice online in presence, no permissions, empty history, one
local session. -/
def stAlice : ServerState :=
  { registry := [("alice", infoOnline0)], permissions := [], history := [],
    clients := [("c1", sessAlice)] }

/-- Same state but with alice `banned` in the permissions registry while
her presence entry is untouched. -/
def stAliceBanned : ServerState :=
  { registry := [("alice", infoOnline0)],
    permissions := [("alice", ⟨Role.banned, 0⟩)], history := [],
    clients := [("c1", sessAlice)] }

/-- Environment with durable KV backing and the default admin secret. -/
def envKV : Env := ⟨"", true⟩

/-- A `join` request from alice on connection "c1". -/
def actJoinAlice : ActionData := ⟨"c1", "join", "", "alice", "", ""⟩

/-- A `chat` request from alice on connection "c1". -/
def actChatAlice : ActionData := ⟨"c1", "chat", "hi", "alice", "", ""⟩

/-- A `cmd_admin` request from alice carrying the default secret. -/
def actAdminAlice : ActionData := ⟨"c1", "cmd_admin", "", "alice", "secret123", ""⟩

/-! ### Claims -/

/-- Claim C1: for every user name, the effective role used by the
dispatcher resolves as the permissions entry's role if that entry exists,
else the presence entry's role if present, else `user`; when permissions
and presence-cached role disagree, the permissions entry wins, and the
chat branch of `handleAction` snapshots exactly this resolved role. -/
theorem C1_effective_role_precedence :
    ∀ (name : String) (reg : UserRegistry) (perms : PermissionsRegistry),
      (∀ p, lookupObj perms name = some p → effectiveRole name reg perms = p.role) ∧
      (lookupObj perms name = none → ∀ info, lookupObj reg name = some info →
        effectiveRole name reg perms = info.role.getD Role.user) ∧
      (lookupObj perms name = none → lookupObj reg name = none →
        effectiveRole name reg perms = Role.user) ∧
      (∀ (d : ActionData) (s : ServerState) (env : Env) (now : Int) (rnd : String),
        d.type = "chat" → senderNameOf d s.clients = name →
        s.registry = reg → s.permissions = perms →
        effectiveRole name reg perms ≠ Role.banned →
        (handleAction d s env now rnd).effects =
          [Effect.broadcast (OutMsg.chat ("msg-" ++ toString now ++ "-" ++ rnd)
            name name (effectiveRole name reg perms) d.content now)]) := by
  intro name reg perms
  refine ⟨?_, ?_, ?_, ?_⟩
  · intro p hp
    unfold effectiveRole
    rw [hp]
  · intro hnone info hinfo
    unfold effectiveRole
    rw [hnone, hinfo]
  · intro hnone hrnone
    unfold effectiveRole
    rw [hnone, hrnone]
  · intro d s env now rnd htype hname hreg hperms hnb
    simp only [handleAction, htype, hname, hreg, hperms]
    simp only [String.reduceEq, if_false, if_neg hnb, ite_false, reduceIte]

/-- Witness for C1: alice is cached as `banned` in presence but `admin`
in permissions; the permissions entry wins. -/
theorem C1_witness :
    lookupObj ([("alice", (⟨some Status.online, 0, some Role.banned⟩ : UserInfo))] : UserRegistry)
        "alice" = some ⟨some Status.online, 0, some Role.banned⟩ ∧
    effectiveRole "alice"
        [("alice", ⟨some Status.online, 0, some Role.banned⟩)]
        [("alice", ⟨Role.admin, 0⟩)] = Role.admin :=
  ⟨rfl,
   (C1_effective_role_precedence "alice"
      [("alice", ⟨some Status.online, 0, some Role.banned⟩)]
      [("alice", ⟨Role.admin, 0⟩)]).1 ⟨Role.admin, 0⟩ rfl⟩

/-- Claim C2: an action whose sender resolves to `banned` and whose type
is not join, ping, or leave is rejected before the chat/command branches:
the state (presence, permissions, history, sessions) is untouched, the
only possible effect is the private error to the sender's local session,
and nothing is broadcast. -/
theorem C2_banned_sender_rejected :
    ∀ (d : ActionData) (s : ServerState) (env : Env) (now : Int) (rnd : String),
      d.type ≠ "join" → d.type ≠ "ping" → d.type ≠ "leave" →
      effectiveRole (senderNameOf d s.clients) s.registry s.permissions = Role.banned →
      (handleAction d s env now rnd).state = s ∧
      (handleAction d s env now rnd).effects =
        privateTo (lookupObj s.clients d.clientId)
          "You are banned and cannot perform actions." ∧
      ∀ m, Effect.broadcast m ∉ (handleAction d s env now rnd).effects := by
  intro d s env now rnd hj hp hl hb
  have hres : handleAction d s env now rnd =
      { state := s,
        effects := privateTo (lookupObj s.clients d.clientId)
          "You are banned and cannot perform actions." } := by
    simp only [handleAction, if_neg hj, if_neg hp, if_neg hl, hb, reduceIte]
  refine ⟨by rw [hres], by rw [hres], ?_⟩
  intro m hm
  rw [hres] at hm
  cases hsess : lookupObj s.clients d.clientId <;>
    simp only [privateTo, hsess] at hm <;> simp at hm

/-- Witness for C2: alice is banned in permissions; her chat attempt leaves
the state alone and yields only the private error. -/
theorem C2_witness :
    (handleAction actChatAlice stAliceBanned envKV 5 "r").state = stAliceBanned ∧
    (handleAction actChatAlice stAliceBanned envKV 5 "r").effects =
      [Effect.privateMsg "c1" "You are banned and cannot perform actions."] := by
  have h := C2_banned_sender_rejected actChatAlice stAliceBanned envKV 5 "r"
    (by decide) (by decide) (by decide) (by decide)
  refine ⟨h.1, ?_⟩
  rw [h.2.1]
  rfl

/-- Claim C8: a `join` by a user whose permissions entry is `banned` is
stopped before any effect: no presence write, no announcement, no
user-list refresh; only the private access-denied message when the
session is local. -/
theorem C8_join_banned_rejected :
    ∀ (d : ActionData) (s : ServerState) (env : Env) (now : Int) (rnd : String)
      (p : UserPermission),
      d.type = "join" → lookupObj s.permissions d.username = some p →
      p.role = Role.banned →
      (handleAction d s env now rnd).state = s ∧
      (handleAction d s env now rnd).effects =
        privateTo (lookupObj s.clients d.clientId)
          "ACCESS DENIED: You are banned from this server." ∧
      ∀ m, Effect.broadcast m ∉ (handleAction d s env now rnd).effects := by
  intro d s env now rnd p ht hperm hrole
  have hres : handleAction d s env now rnd =
      { state := s,
        effects := privateTo (lookupObj s.clients d.clientId)
          "ACCESS DENIED: You are banned from this server." } := by
    simp only [handleAction, ht, hperm, reduceIte]
    rw [if_pos (by simp [hrole])]
  refine ⟨by rw [hres], by rw [hres], ?_⟩
  intro m hm
  rw [hres] at hm
  cases hsess : lookupObj s.clients d.clientId <;>
    simp only [privateTo, hsess] at hm <;> simp at hm

/-- Witness for C8: banned alice attempts to join; only the private
access-denied message is produced and the state is unchanged. -/
theorem C8_witness :
    (handleAction actJoinAlice stAliceBanned envKV 5 "r").state = stAliceBanned ∧
    (handleAction actJoinAlice stAliceBanned envKV 5 "r").effects =
      [Effect.privateMsg "c1" "ACCESS DENIED: You are banned from this server."] := by
  have h := C8_join_banned_rejected actJoinAlice stAliceBanned envKV 5 "r"
    ⟨Role.banned, 0⟩ rfl (by decide) rfl
  refine ⟨h.1, ?_⟩
  rw [h.2.1]
  rfl

/-- With durable KV backing the touched entry is the merged one. -/
theorem updateUserRegistry_kv (reg : UserRegistry) (u : String) (upd : RegUpdate)
    (now : Int) :
    updateUserRegistry reg u upd now true =
      objSet reg u (applyUpdate (lookupObj reg u) upd now) := rfl

/-- Counterexample to claim C3 as stated: alice is online with
`lastSeen = 0`; her `chat` action at time 5000 leaves the presence entry
untouched at `lastSeen = 0` instead of the current time 5000. -/
theorem C3_counterexample :
    lookupObj (handleAction actChatAlice stAlice envKV 5000 "r").state.registry "alice" =
      some ⟨some Status.online, 0, none⟩ ∧ (0 : Int) ≠ 5000 := by decide

/-- Claim C3 (amended): a join (of a non-banned name), a ping or an
explicit leave naming a non-Anonymous user stamps that user's presence
`lastSeen` with the current time (stated under durable KV backing, where
the size-bound eviction cannot interfere); a `chat` action, however, does
not modify the presence registry at all. -/
theorem C3_touch_semantics :
    ∀ (d : ActionData) (s : ServerState) (env : Env) (now : Int) (rnd : String),
      env.hasKV = true →
      ((d.type = "join" →
         (lookupObj s.permissions d.username).map UserPermission.role ≠ some Role.banned →
         ∃ info, lookupObj (handleAction d s env now rnd).state.registry d.username =
             some info ∧ info.lastSeen = now) ∧
       (d.type = "ping" → d.username ≠ "" → d.username ≠ "Anonymous" →
         ∃ info, lookupObj (handleAction d s env now rnd).state.registry d.username =
             some info ∧ info.lastSeen = now) ∧
       (d.type = "leave" → d.username ≠ "" → d.username ≠ "Anonymous" →
         ∃ info, lookupObj (handleAction d s env now rnd).state.registry d.username =
             some info ∧ info.lastSeen = now) ∧
       (d.type = "chat" →
         (handleAction d s env now rnd).state.registry = s.registry)) := by
  intro d s env now rnd hkv
  refine ⟨?_, ?_, ?_, ?_⟩
  · intro ht hnb
    simp only [handleAction, ht, reduceIte]
    rw [if_neg hnb]
    simp only [hkv, updateUserRegistry_kv, lookupObj_objSet_self]
    exact ⟨_, rfl, rfl⟩
  · intro ht h1 h2
    simp only [handleAction, ht, String.reduceEq, reduceIte]
    rw [if_pos ⟨h1, h2⟩]
    simp only [hkv, updateUserRegistry_kv, lookupObj_objSet_self]
    exact ⟨_, rfl, rfl⟩
  · intro ht h1 h2
    simp only [handleAction, ht, String.reduceEq, reduceIte]
    rw [if_pos ⟨h1, h2⟩]
    cases hsess : lookupObj s.clients d.clientId <;>
      simp only [hsess, hkv, updateUserRegistry_kv, lookupObj_objSet_self] <;>
      exact ⟨_, rfl, rfl⟩
  · intro ht
    simp only [handleAction, ht, String.reduceEq, reduceIte]
    by_cases hb : effectiveRole (senderNameOf d s.clients) s.registry s.permissions =
        Role.banned
    · rw [if_pos hb]
    · rw [if_neg hb]

/-- Witness for the amended C3: alice's join at time 5000 stamps her
presence entry with `lastSeen = 5000`. -/
theorem C3_witness :
    ∃ info, lookupObj (handleAction actJoinAlice stAlice envKV 5000 "r").state.registry
        "alice" = some info ∧ info.lastSeen = 5000 :=
  (C3_touch_semantics actJoinAlice stAlice envKV 5000 "r" rfl).1 rfl (by decide)

/-- Claim C4: a `join` of a non-banned user whose presence shows `online`
with `lastSeen` less than 10 s old suppresses the join announcement and
produces only the user-list refresh, while still writing the presence
touch (online, resolved role, fresh `lastSeen`); once `lastSeen` is 10 s
or older (e.g. 20 s), the join announcement is emitted in addition. -/
theorem C4_quick_reconnect :
    ∀ (d : ActionData) (s : ServerState) (env : Env) (now : Int) (rnd : String)
      (info : UserInfo),
      d.type = "join" →
      (lookupObj s.permissions d.username).map UserPermission.role ≠ some Role.banned →
      lookupObj s.registry d.username = some info →
      info.status = some Status.online →
      ((now - info.lastSeen < 10000 →
          (handleAction d s env now rnd).effects =
            [userListEffect (handleAction d s env now rnd).state.registry now] ∧
          (env.hasKV = true →
            lookupObj (handleAction d s env now rnd).state.registry d.username =
              some ⟨some Status.online, now,
                some (effectiveRole d.username s.registry s.permissions)⟩) ∧
          (handleAction d s env now rnd).state.permissions = s.permissions ∧
          (handleAction d s env now rnd).state.history = s.history) ∧
       (10000 ≤ now - info.lastSeen →
          (handleAction d s env now rnd).effects =
            [userListEffect (handleAction d s env now rnd).state.registry now,
             Effect.broadcast (OutMsg.system
               (some ("sys-join-" ++ toString now ++ "-" ++ rnd))
               (d.username ++ " joined the channel.") (some now))] ∧
          (env.hasKV = true →
            lookupObj (handleAction d s env now rnd).state.registry d.username =
              some ⟨some Status.online, now,
                some (effectiveRole d.username s.registry s.permissions)⟩))) := by
  intro d s env now rnd info ht hnb hinfo hst
  constructor
  · intro hlt
    simp only [handleAction, ht, reduceIte]
    rw [if_neg hnb]
    simp only [hinfo, decide_eq_true (p := info.status = some Status.online ∧
      now - info.lastSeen < 10000) ⟨hst, hlt⟩, if_true]
    refine ⟨?_, ?_, ?_, ?_⟩ <;>
      intros <;>
      simp_all [updateUserRegistry_kv, lookupObj_objSet_self, effectiveRole,
        applyUpdate]
  · intro hge
    simp only [handleAction, ht, reduceIte]
    rw [if_neg hnb]
    simp only [hinfo, decide_eq_false (p := info.status = some Status.online ∧
      now - info.lastSeen < 10000) (fun h => absurd h.2 (by omega)), if_false]
    refine ⟨?_, ?_⟩ <;>
      intros <;>
      simp_all [updateUserRegistry_kv, lookupObj_objSet_self, effectiveRole,
        applyUpdate]

/-- Witness for C4: alice (online, `lastSeen = 0`) rejoins at time 5000:
the only effect is the user-list refresh. -/
theorem C4_witness :
    (handleAction actJoinAlice stAlice envKV 5000 "r").effects =
      [userListEffect (handleAction actJoinAlice stAlice envKV 5000 "r").state.registry
        5000] :=
  ((C4_quick_reconnect actJoinAlice stAlice envKV 5000 "r" infoOnline0 rfl
      (by decide) rfl rfl).1 (by decide)).1

theorem userListPayloads_privateTo (sess : Option ClientSession) (t : String) :
    userListPayloads (privateTo sess t) = [] := by
  cases sess <;> rfl

/-- Claim C5: the user-list broadcast contains exactly the presence
entries that are `online`, fresh within the 60 s staleness threshold and
not `banned` (offline, stale or banned entries are excluded even when
marked `status = online`); and it is a function of the persisted registry
alone — swapping the local session map never changes the `user_list`
payloads a join produces. -/
theorem C5_user_list_filter :
    (∀ (reg : UserRegistry) (now : Int) (u : String),
       (reg.map Prod.fst).Nodup →
       ((∃ e ∈ buildUserList reg now, e.username = u) ↔
         ∃ info, lookupObj reg u = some info ∧ info.status = some Status.online ∧
           now - info.lastSeen < 60000 ∧ info.role ≠ some Role.banned)) ∧
    (∀ (d : ActionData) (reg : UserRegistry) (perms : PermissionsRegistry)
       (hist : List OutMsg) (cl₁ cl₂ : Clients) (env : Env) (now : Int) (rnd : String),
       d.type = "join" →
       userListPayloads (handleAction d ⟨reg, perms, hist, cl₁⟩ env now rnd).effects =
         userListPayloads (handleAction d ⟨reg, perms, hist, cl₂⟩ env now rnd).effects) := by
  constructor
  · intro reg now u hnd
    exact buildUserList_mem_iff reg now u hnd
  · intro d reg perms hist cl₁ cl₂ env now rnd ht
    simp only [handleAction, ht, reduceIte]
    by_cases hbn : (Option.map UserPermission.role (lookupObj perms d.username)) =
        some Role.banned
    · rw [if_pos hbn, if_pos hbn]
      simp only [userListPayloads_privateTo]
    · rw [if_neg hbn, if_neg hbn]

/-- Witness for C5: in a registry holding an online fresh user "a", an
offline user "b", a banned-but-online "c" and a stale-online "d", the
broadcast list contains "a". -/
theorem C5_witness :
    ∃ e ∈ buildUserList
        [("a", ⟨some Status.online, 0, none⟩), ("b", ⟨some Status.offline, 0, none⟩),
         ("c", ⟨some Status.online, 0, some Role.banned⟩),
         ("d", ⟨some Status.online, -100000, some Role.admin⟩)] 5000,
      e.username = "a" :=
  ((C5_user_list_filter).1
      [("a", ⟨some Status.online, 0, none⟩), ("b", ⟨some Status.offline, 0, none⟩),
       ("c", ⟨some Status.online, 0, some Role.banned⟩),
       ("d", ⟨some Status.online, -100000, some Role.admin⟩)] 5000 "a"
      (by decide)).mpr
    ⟨⟨some Status.online, 0, none⟩, by decide, by decide, by decide, by decide⟩

/-- Claim C7: `cmd_admin` (from a non-banned sender) grants `admin` to
the sender exactly when the provided secret verbatim equals the configured
admin secret: on match the permissions registry gets the admin entry, the
presence registry mirrors the role (under durable backing), and the
effects are the private confirmation plus a user-list refresh; on
mismatch the state is untouched and only the private error is sent. -/
theorem C7_cmd_admin_grant :
    ∀ (d : ActionData) (s : ServerState) (env : Env) (now : Int) (rnd : String),
      d.type = "cmd_admin" →
      effectiveRole (senderNameOf d s.clients) s.registry s.permissions ≠ Role.banned →
      ((d.secret = serverSecret env →
          (handleAction d s env now rnd).state.permissions =
            updatePermissionsRegistry s.permissions (senderNameOf d s.clients)
              Role.admin now ∧
          lookupObj (handleAction d s env now rnd).state.permissions
              (senderNameOf d s.clients) = some ⟨Role.admin, now⟩ ∧
          (env.hasKV = true →
            (lookupObj (handleAction d s env now rnd).state.registry
                (senderNameOf d s.clients)).map UserInfo.role =
              some (some Role.admin)) ∧
          (handleAction d s env now rnd).effects =
            privateTo (lookupObj s.clients d.clientId)
              ("Admin privileges granted to " ++ senderNameOf d s.clients ++ ".") ++
            [userListEffect (handleAction d s env now rnd).state.registry now] ∧
          (handleAction d s env now rnd).state.history = s.history) ∧
       (d.secret ≠ serverSecret env →
          (handleAction d s env now rnd).state = s ∧
          (handleAction d s env now rnd).effects =
            privateTo (lookupObj s.clients d.clientId) "Invalid admin secret.")) := by
  intro d s env now rnd ht hnb
  constructor
  · intro hsec
    simp only [handleAction, ht, String.reduceEq, reduceIte]
    rw [if_neg hnb, if_pos hsec]
    refine ⟨rfl, ?_, ?_, rfl, rfl⟩
    · simp only [updatePermissionsRegistry, lookupObj_objSet_self]
    · intro hkv
      simp only [hkv, updateUserRegistry_kv, lookupObj_objSet_self, applyUpdate,
        Option.map_some']
  · intro hsec
    simp only [handleAction, ht, String.reduceEq, reduceIte]
    rw [if_neg hnb, if_neg hsec]
    exact ⟨rfl, rfl⟩

/-- Witness for C7: alice presents the default secret and is granted
admin in the permissions registry. -/
theorem C7_witness :
    lookupObj (handleAction actAdminAlice stAlice envKV 7 "r").state.permissions
      "alice" = some ⟨Role.admin, 7⟩ :=
  (((C7_cmd_admin_grant actAdminAlice stAlice envKV 7 "r" rfl (by decide)).1)
    (by decide)).2.1

/-- Claim C6: the history buffer never exceeds 50 events, and appending
more than 50 chat events to an empty buffer leaves exactly the 50 most
recently appended ones, in arrival order. -/
theorem C6_history_bound :
    ∀ (hasKV : Bool) (msgs : List OutMsg),
      (∀ (h : List OutMsg) (m : OutMsg), h.length ≤ 50 →
        (appendToHistory hasKV h m).length ≤ 50) ∧
      (50 < msgs.length →
        msgs.foldl (appendToHistory hasKV) [] = msgs.drop (msgs.length - 50) ∧
        (msgs.foldl (appendToHistory hasKV) []).length = 50) := by
  intro hasKV msgs
  constructor
  · intro h m hlen
    exact appendToHistory_length_le hasKV h m hlen
  · intro hgt
    have hfold := foldl_appendToHistory hasKV msgs [] (by simp)
    simp only [List.nil_append] at hfold
    refine ⟨hfold, ?_⟩
    rw [hfold, List.length_drop]
    omega

/-- Fifty-one distinct system events. -/
def msgs51 : List OutMsg := (List.range 51).map (fun i => OutMsg.system none (toString i) none)

/-- Witness for C6: after 51 appends (memory variant) exactly 50 events
remain. -/
theorem C6_witness : (msgs51.foldl (appendToHistory false) []).length = 50 :=
  ((C6_history_bound false msgs51).2 (by decide)).2

/-- Claim C9: without durable backing, a presence touch that leaves the
map with more than 100 keys evicts exactly the first (oldest, by
insertion order) 20 entries; with durable backing the touch is a plain
merged write and every existing key survives. -/
theorem C9_eviction_policy :
    ∀ (reg : UserRegistry) (u : String) (upd : RegUpdate) (now : Int),
      (updateUserRegistry reg u upd now true =
        objSet reg u (applyUpdate (lookupObj reg u) upd now)) ∧
      (∀ k, (lookupObj reg k).isSome →
        (lookupObj (updateUserRegistry reg u upd now true) k).isSome) ∧
      (((objSet reg u (applyUpdate (lookupObj reg u) upd now)).map Prod.fst).Nodup →
        100 < (objSet reg u (applyUpdate (lookupObj reg u) upd now)).length →
        updateUserRegistry reg u upd now false =
          (objSet reg u (applyUpdate (lookupObj reg u) upd now)).drop 20) := by
  intro reg u upd now
  refine ⟨rfl, ?_, ?_⟩
  · intro k hk
    rw [updateUserRegistry_kv]
    by_cases he : u = k
    · subst he
      rw [lookupObj_objSet_self]
      rfl
    · rw [lookupObj_objSet_ne _ _ _ _ he]
      exact hk
  · intro hnd hlen
    simp only [updateUserRegistry, Bool.false_eq_true, if_false, ite_false]
    rw [if_pos (by rw [List.length_map]; exact hlen)]
    exact foldl_eraseKey_take _ 20 hnd

/-- A registry already holding 101 distinct names. -/
def c9reg : UserRegistry := (List.range 101).map (fun i => ("u" ++ toString i, infoOnline0))

/-- The `ping` update object. -/
def c9upd : RegUpdate := ⟨some Status.online, none⟩

/-- Witness for C9: touching "u0" in a 101-entry in-memory registry drops
the 20 oldest entries. -/
theorem C9_witness :
    updateUserRegistry c9reg "u0" c9upd 5 false =
      (objSet c9reg "u0" (applyUpdate (lookupObj c9reg "u0") c9upd 5)).drop 20 :=
  (C9_eviction_policy c9reg "u0" c9upd 5).2.2 (by decide) (by decide)

/-- Claim C10: an action whose type is none of the ten recognized ones
leaves the whole state untouched and broadcasts nothing, yet the HTTP
layer still answers 200 `\x7b"success":true\x7d` — the same response every
dispatched action gets, so an unrecognized action is indistinguishable
from a successful one at the API. -/
theorem C10_unknown_action :
    ∀ (d : ActionData) (s : ServerState) (env : Env) (now : Int) (rnd : String),
      d.type ∉ ["join", "ping", "leave", "chat", "cmd_admin", "cmd_op", "cmd_deop",
        "cmd_ban", "cmd_unban", "cmd_list_users"] →
      ((actionEndpoint d s env now rnd).2.state = s ∧
       (∀ m, Effect.broadcast m ∉ (actionEndpoint d s env now rnd).2.effects) ∧
       (actionEndpoint d s env now rnd).1 = ⟨200, "\x7b\"success\":true\x7d"⟩ ∧
       ∀ (d' : ActionData) (s' : ServerState) (env' : Env) (now' : Int) (rnd' : String),
         (actionEndpoint d' s' env' now' rnd').1 = (actionEndpoint d s env now rnd).1) := by
  intro d s env now rnd hmem
  simp only [List.mem_cons, List.not_mem_nil, or_false] at hmem
  push_neg at hmem
  obtain ⟨h1, h2, h3, h4, h5, h6, h7, h8, h9, h10⟩ := hmem
  have hred : handleAction d s env now rnd =
      (if effectiveRole (senderNameOf d s.clients) s.registry s.permissions =
          Role.banned then
        { state := s,
          effects := privateTo (lookupObj s.clients d.clientId)
            "You are banned and cannot perform actions." }
      else { state := s, effects := [] }) := by
    simp only [handleAction, if_neg h1, if_neg h2, if_neg h3, if_neg h4, if_neg h5,
      if_neg h6, if_neg h7, if_neg h8, if_neg h9, if_neg h10]
  refine ⟨?_, ?_, rfl, fun d' s' env' now' rnd' => rfl⟩
  · show (handleAction d s env now rnd).state = s
    rw [hred]
    by_cases hb : effectiveRole (senderNameOf d s.clients) s.registry s.permissions =
        Role.banned
    · rw [if_pos hb]
    · rw [if_neg hb]
  · intro m hm
    have hm' : Effect.broadcast m ∈ (handleAction d s env now rnd).effects := hm
    rw [hred] at hm'
    by_cases hb : effectiveRole (senderNameOf d s.clients) s.registry s.permissions =
        Role.banned
    · rw [if_pos hb] at hm'
      cases hsess : lookupObj s.clients d.clientId <;>
        simp only [privateTo, hsess] at hm' <;> simp at hm'
    · rw [if_neg hb] at hm'
      simp at hm'

/-- Witness for C10: a "bogus" action against alice's state changes
nothing and still gets the success response. -/
theorem C10_witness :
    (actionEndpoint ⟨"c1", "bogus", "", "alice", "", ""⟩ stAlice envKV 5 "r").2.state =
      stAlice ∧
    (actionEndpoint ⟨"c1", "bogus", "", "alice", "", ""⟩ stAlice envKV 5 "r").1 =
      ⟨200, "\x7b\"success\":true\x7d"⟩ := by
  have h := C10_unknown_action ⟨"c1", "bogus", "", "alice", "", ""⟩ stAlice envKV 5 "r"
    (by decide)
  exact ⟨h.1, h.2.2.1⟩

end TermiChat
